import Mathlib

/-!
Shallow embedding of `createHepData_all.py` (HEPData generator for ROOT
files, EXO-23-016).  Python strings are modelled by `String`, Python floats
by exact rationals `ℚ`, the `hepdata_lib` classes (`Variable`,
`Uncertainty`, `Table`, `Submission`) by structures, and a ROOT `TH1` by a
structure carrying its axis edges, bin contents and bin errors.  The
functions `check_imagemagick_available`, `extract_histogram_data`,
`create_binned_variable`, `create_dependent_variable`,
`get_figure_metadata`, `get_x_axis_info`, `create_variable_name`,
`process_single_figure` and `process_existing_yaml_file` are translated
clause by clause from the source.
-/

namespace HepData

/-! ### Python string primitives -/

/-- Python `str.lower()`. -/
def toLowerStr (s : String) : String := ⟨s.data.map Char.toLower⟩

/-- Helper for substring containment: does `pat` occur in the list? -/
def containsAux (pat : List Char) : List Char → Bool
  | [] => List.isPrefixOf pat []
  | c :: rest => List.isPrefixOf pat (c :: rest) || containsAux pat rest

/-- Python `pat in s` (substring containment). -/
def strContains (s pat : String) : Bool := containsAux pat.data s.data

/-- Fuel-driven worker for `replaceStr`; fuel `s.length` always suffices
since every step consumes at least one character. -/
def replaceFuel (pat rep : List Char) : Nat → List Char → List Char
  | 0, s => s
  | _ + 1, [] => []
  | fuel + 1, c :: rest =>
    if List.isPrefixOf pat (c :: rest) then
      rep ++ replaceFuel pat rep fuel ((c :: rest).drop pat.length)
    else c :: replaceFuel pat rep fuel rest

/-- Python `s.replace(pat, rep)`, left-to-right non-overlapping; the source
only calls it with the non-empty pattern an underscore followed by copy. -/
def replaceStr (s pat rep : String) : String :=
  if pat.isEmpty then s else ⟨replaceFuel pat.data rep.data s.data.length s.data⟩

/-- Python `s.strip()`: drop leading and trailing whitespace. -/
def trimStr (s : String) : String :=
  ⟨((s.data.dropWhile Char.isWhitespace).reverse.dropWhile Char.isWhitespace).reverse⟩

/-! ### hepdata_lib data model -/

/-- One entry of a `Variable.values` sequence: a point value for unbinned
variables, a `[low, high]` edge pair for binned ones. -/
inductive VarValue where
  | scalar (v : ℚ) : VarValue
  | bin (lo hi : ℚ) : VarValue
deriving DecidableEq

/-- `hepdata_lib.Uncertainty` (the source only builds symmetric ones, one
magnitude per point). -/
structure Uncertainty where
  label : String
  is_symmetric : Bool
  values : List ℚ
deriving DecidableEq

/-- `hepdata_lib.Variable`; qualifiers are (name, value, units) triples. -/
structure Variable where
  name : String
  is_independent : Bool
  is_binned : Bool
  units : String
  values : List VarValue
  uncertainties : List Uncertainty
  qualifiers : List (String × ℚ × String)
deriving DecidableEq

/-- `Variable.add_uncertainty`. -/
def Variable.add_uncertainty (v : Variable) (u : Uncertainty) : Variable :=
  { v with uncertainties := v.uncertainties ++ [u] }

/-- `Variable.add_qualifier(name, value, units="")`. -/
def Variable.add_qualifier (v : Variable) (n : String) (val : ℚ) (u : String) : Variable :=
  { v with qualifiers := v.qualifiers ++ [(n, val, u)] }

/-- `hepdata_lib.Table`; the Python attribute `variables` is a reserved
word in Lean, so the field is called `vars`. -/
structure Table where
  name : String
  description : String
  location : String
  keywords : List (String × List String)
  image_files : List String
  vars : List Variable
deriving DecidableEq

/-- `Table.add_variable`. -/
def Table.add_variable (t : Table) (v : Variable) : Table :=
  { t with vars := t.vars ++ [v] }

/-- `Table.add_image`. -/
def Table.add_image (t : Table) (p : String) : Table :=
  { t with image_files := t.image_files ++ [p] }

/-- `hepdata_lib.Submission`: process-wide ordered collection of tables. -/
structure Submission where
  tables : List Table
deriving DecidableEq

/-- `Submission.add_table`. -/
def Submission.add_table (s : Submission) (t : Table) : Submission :=
  { s with tables := s.tables ++ [t] }

/-! ### ROOT histogram model -/

/-- A ROOT `TH1`: `edges` are the axis bin edges (`nbins + 1` of them),
`contents` and `errors` hold one entry per bin.  `xTitle`/`yTitle` are the
axis titles, `name` the object name. -/
structure TH1 where
  name : String
  xTitle : String
  yTitle : String
  edges : List ℚ
  contents : List ℚ
  errors : List ℚ
deriving DecidableEq

/-- `TH1.GetNbinsX()`. -/
def TH1.GetNbinsX (h : TH1) : Nat := h.edges.length - 1

/-- `TH1.GetBinLowEdge(i)` for the 1-indexed bin `i`. -/
def TH1.GetBinLowEdge (h : TH1) (i : Nat) : ℚ := h.edges.getD (i - 1) 0

/-- `TH1.GetBinWidth(i)`: distance between the two edges of bin `i`. -/
def TH1.GetBinWidth (h : TH1) (i : Nat) : ℚ := h.edges.getD i 0 - h.edges.getD (i - 1) 0

/-- `TH1.GetBinCenter(i)`: low edge plus half the width. -/
def TH1.GetBinCenter (h : TH1) (i : Nat) : ℚ := h.GetBinLowEdge i + h.GetBinWidth i / 2

/-- `TH1.GetBinContent(i)` for the 1-indexed bin `i`. -/
def TH1.GetBinContent (h : TH1) (i : Nat) : ℚ := h.contents.getD (i - 1) 0

/-- `TH1.GetBinError(i)` for the 1-indexed bin `i`. -/
def TH1.GetBinError (h : TH1) (i : Nat) : ℚ := h.errors.getD (i - 1) 0

/-! ### check_imagemagick_available (source lines 49-57) -/

/-- Outcome of the `subprocess.run(['convert', '-version'], timeout=5)`
capability probe. -/
inductive ProbeOutcome where
  | exited (returncode : Int) : ProbeOutcome
  | timeoutExpired : ProbeOutcome
  | fileNotFound : ProbeOutcome
  | subprocessError : ProbeOutcome
deriving DecidableEq

/-- `check_imagemagick_available`: true exactly when the probe exits with
return code 0; timeout, missing executable and subprocess errors all give
`false`. -/
def check_imagemagick_available : ProbeOutcome → Bool
  | .exited returncode => returncode == 0
  | .timeoutExpired => false
  | .fileNotFound => false
  | .subprocessError => false

/-! ### extract_histogram_data (source lines 407-444) -/

/-- The dict returned by `extract_histogram_data`. -/
structure HistData where
  x_centers : List ℚ
  x_low : List ℚ
  x_high : List ℚ
  y_values : List ℚ
  y_errors : List ℚ
deriving DecidableEq

/-- `extract_histogram_data(hist)`: loops `i` over `range(1, n_bins + 1)`
collecting centers, low edges, `low + width` as high edges, contents and
errors. -/
def extract_histogram_data (hist : TH1) : HistData :=
  let n_bins := hist.GetNbinsX
  { x_centers := (List.range n_bins).map (fun j => hist.GetBinCenter (j + 1))
    x_low := (List.range n_bins).map (fun j => hist.GetBinLowEdge (j + 1))
    x_high := (List.range n_bins).map (fun j => hist.GetBinLowEdge (j + 1) + hist.GetBinWidth (j + 1))
    y_values := (List.range n_bins).map (fun j => hist.GetBinContent (j + 1))
    y_errors := (List.range n_bins).map (fun j => hist.GetBinError (j + 1)) }

/-! ### create_binned_variable / create_dependent_variable (446-474) -/

/-- `create_binned_variable(name, x_low, x_high, units, is_independent)`:
pairs `x_low[i]` with `x_high[i]` (in Python an `x_high` shorter than
`x_low` would raise; modelled by the default 0, unreachable at call
sites). -/
def create_binned_variable (name : String) (x_low x_high : List ℚ)
    (units : String) (is_ind : Bool) : Variable :=
  { name := name, is_independent := is_ind, is_binned := true, units := units,
    values := (List.range x_low.length).map
      (fun i => VarValue.bin (x_low.getD i 0) (x_high.getD i 0)),
    uncertainties := [], qualifiers := [] }

/-- `create_dependent_variable(name, y_values, y_errors, units,
uncertainty_label, CME)`: attaches the single statistical uncertainty only
when `y_errors` is non-empty (Python truthiness) and some magnitude is
strictly positive, then adds the `SQRT(S)` qualifier. -/
def create_dependent_variable (name : String) (y_values y_errors : List ℚ)
    (units uncertainty_label : String) (CME : ℚ) : Variable :=
  let var : Variable :=
    { name := name, is_independent := false, is_binned := false, units := units,
      values := y_values.map VarValue.scalar, uncertainties := [], qualifiers := [] }
  let var :=
    if (!y_errors.isEmpty) && y_errors.any (fun err => decide (0 < err)) then
      var.add_uncertainty { label := uncertainty_label, is_symmetric := true, values := y_errors }
    else var
  var.add_qualifier "SQRT(S)" CME "TeV"

/-! ### get_figure_metadata (source lines 476-521) -/

/-- The per-figure metadata dict entries. -/
structure FigureMetadata where
  description : String
  location : String
deriving DecidableEq

/-- The nine-entry metadata dictionary of `get_figure_metadata`. -/
def figure_metadata_entries : List (String × FigureMetadata) := [
  ("Figure41a",
   ⟨"The L1T+HLT efficiency of the Run 3 (2022, L3) triggers in 2022 data, 2023 data, and simulation as a function of min($p_T$) of the two muons forming TMS-TMS dimuons in events enriched in J/ψ → μμ events. Efficiency in data is the fraction of J/ψ → μμ events recorded by the triggers based on the information from jets and $p_T^\x7bmiss\x7d$ that also satisfy the requirements of the Run 3 (2022, L3) triggers. It is compared to the efficiency of the Run 3 (2022, L3) triggers in a combination of simulated samples of J/ψ → μμ events produced in various b hadron decays. The lower panels show the ratio of the data to simulated events.",
    "Data from Figure 41 (upper left)."⟩),
  ("Figure41b",
   ⟨"The L1T+HLT efficiency of the Run 3 (2022, L3) triggers in 2022 data, 2023 data, and simulation as a function of max($p_T$) of the two muons forming TMS-TMS dimuons in events enriched in J/ψ → μμ events. Efficiency in data is the fraction of J/ψ → μμ events recorded by the triggers based on the information from jets and $p_T^\x7bmiss\x7d$ that also satisfy the requirements of the Run 3 (2022, L3) triggers. It is compared to the efficiency of the Run 3 (2022, L3) triggers in a combination of simulated samples of J/ψ → μμ events produced in various b hadron decays. The lower panels show the ratio of the data to simulated events.",
    "Data from Figure 41 (upper right)."⟩),
  ("Figure41c",
   ⟨"The L1T+HLT efficiency of the Run 3 (2022, L3) triggers in 2022 data, 2023 data, and simulation as a function of min($d_0$) of the two muons forming TMS-TMS dimuons in events enriched in J/ψ → μμ events. Efficiency in data is the fraction of J/ψ → μμ events recorded by the triggers based on the information from jets and $p_T^\x7bmiss\x7d$ that also satisfy the requirements of the Run 3 (2022, L3) triggers. It is compared to the efficiency of the Run 3 (2022, L3) triggers in a combination of simulated samples of J/ψ → μμ events produced in various b hadron decays. The lower panels show the ratio of the data to simulated events.",
    "Data from Figure 41 (lower)."⟩),
  ("Figure42a",
   ⟨"The HLT efficiency, defined as the fraction of events recorded by the Run 2 (2018) triggers that also satisfied the requirements of the Run 3 (2022, L3) triggers, as a function of offline-reconstructed min($d_0$) of the two muons forming TMS-TMS dimuons in events enriched in J/ψ → μμ. The data represent efficiencies during the 2022 and 2023 data-taking periods. For dimuons with offline min($d_0$) > 0.012 cm, the combined efficiency of the L3 muon reconstruction and the online min($d_0$) requirement is larger than 90% in all data-taking periods.",
    "Data from Figure 42 (upper left)."⟩),
  ("Figure42b",
   ⟨"The HLT efficiency of the Run 3 (2022, L3) triggers and the Run 3 (2022, L3 dTks) triggers for J/ψ → μμ events in the 2022 and 2023 data set as a function of offline-reconstructed min($d_0$) of the two muons forming TMS-TMS dimuons in events enriched in J/ψ → μμ.",
    "Data from Figure 42 (upper right)."⟩),
  ("Figure42c",
   ⟨"Invariant mass distribution for TMS-TMS dimuons in events recorded by the Run 2 (2018) triggers in the combined 2022 and 2023 data set, and in the subset of events also selected by the Run 3 (2022, L3) trigger and Run 3 (2022, L3 dTks) trigger, illustrating the prompt muon rejection of the L3 triggers.",
    "Data from Figure 42 (lower)."⟩),
  ("Figure43a",
   ⟨"The HLT efficiency, defined as the fraction of events recorded by the Run 2 (2018) triggers that also satisfied the requirements of the Run 3 (2022, L2) triggers, as a function of offline-reconstructed min($d_0$) of the two muons forming STA-STA dimuons in events enriched in cosmic ray muons. The data represent efficiencies during the 2022 and 2023 data-taking periods. For displaced muons, the efficiency of the online min($d_0$) requirement is larger than 95% in all data-taking periods.",
    "Data from Figure 43 (left)."⟩),
  ("Figure43b",
   ⟨"The invariant mass distribution for TMS-TMS dimuons in events recorded by the Run 2 (2018) triggers in the combined 2022 and 2023 data set, and in the subset of events also selected by the Run 3 (2022, L2) triggers, illustrating the prompt muon rejection of the Run 3 (2022, L2) triggers.",
    "Data from Figure 43 (right)."⟩),
  ("Figure40",
   ⟨"The L1T+HLT efficiencies of the various displaced-dimuon triggers and their logical OR as a function of $c\\tau$ for the HAHM signal events with $m_H = 125\\ GeV$ and $m_\x7bZ_D\x7d = 20\\ GeV$, for 2022 conditions. The efficiency is defined as the fraction of simulated events that satisfy the detector acceptance and the requirements of the following sets of triggers: the Run 2 (2018) triggers (dashed black); the Run 3 (2022, L3) triggers (blue); the Run 3 (2022, L2) triggers (red); and the logical OR of all these triggers (Run 3 (2022), solid black). The lower panel shows the ratio of the overall Run 3 (2022) efficiency to the Run 2 (2018) efficiency.",
    "Data from Figure 40."⟩)
]

/-- `get_figure_metadata(figure_name)`: dictionary lookup with the
placeholder default embedding the raw figure name. -/
def get_figure_metadata (figure_name : String) : FigureMetadata :=
  match figure_metadata_entries.lookup figure_name with
  | some m => m
  | none =>
    ⟨"PLACEHOLDER: Description for " ++ figure_name,
     "PLACEHOLDER: Location for " ++ figure_name⟩

/-! ### get_x_axis_info (source lines 658-687) -/

/-- `get_x_axis_info(x_axis_title, figure_name)`: per-figure overrides
first, then bracketed-unit stripping, then the raw (stripped) title with
`"Variable"` replacing an empty one. -/
def get_x_axis_info (x_axis_title figure_name : String) : String × String :=
  let title := trimStr x_axis_title
  if figure_name = "Figure41a" then ("min($p_T$)", "GeV")
  else if figure_name = "Figure41b" then ("max($p_T$)", "GeV")
  else if figure_name = "Figure41c" then ("min($d_0$)", "cm")
  else if figure_name ∈ ["Figure42a", "Figure42b"] then ("min($d_0$)", "cm")
  else if figure_name ∈ ["Figure42c", "Figure43b"] then ("$m_\x7b\\mu\\mu\x7d$", "GeV")
  else if figure_name = "Figure43a" then ("min($d_0$)", "cm")
  else if strContains title "[GeV]" then (trimStr (replaceStr title "[GeV]" ""), "GeV")
  else if strContains title "[cm]" then (trimStr (replaceStr title "[cm]" ""), "cm")
  else ((if title.isEmpty then "Variable" else title), "")

/-! ### create_variable_name (source lines 689-738) -/

/-- The figure-specific branches of `create_variable_name` (source lines
693-711); `none` when the block falls through to the generic chain. -/
def create_variable_name_specific (hist_name figure_name : String) : Option String :=
  if figure_name = "Figure42c" then
    if strContains hist_name "MuonRun3HLTRun2" then some "Run 2 (2018) observed events"
    else if strContains hist_name "DisplacedL3" && !strContains hist_name "dTks" then
      some "Run 3 (2022, L3) observed events"
    else if strContains hist_name "dTks" then some "Run 3 (2022, L3 dTks) observed events"
    else none
  else if figure_name = "Figure43b" then
    if strContains hist_name "MuonRun3HLTRun2" then some "Run 2 (2018) observed events"
    else if strContains hist_name "L3VetoOR" then some "Run 3 (2022, L2) observed events"
    else none
  else if figure_name = "Figure42a" then
    if strContains hist_name "HData2022" then
      some "Run 3 (2022, L3) trigger efficiency - 2022 data"
    else if strContains hist_name "2023" then
      some "Run 3 (2022, L3) trigger efficiency - 2023 data"
    else none
  else none

/-- `create_variable_name(hist_name, figure_name)`: the figure-specific
block, falling through to the generic substring chain and finally to the
placeholder embedding the raw histogram name. -/
def create_variable_name (hist_name figure_name : String) : String :=
  match create_variable_name_specific hist_name figure_name with
  | some s => s
  | none =>
    if strContains hist_name "dTks" then "Run 3 (2022, L3 dTks) trigger efficiency"
    else if strContains hist_name "DisplacedL3" && strContains hist_name "Muon" then
      "Run 3 (2022, L3) trigger efficiency"
    else if strContains hist_name "DisplacedL3" && strContains hist_name "JetMET" then
      (if strContains hist_name "2022" then "Run 3 (2022, L3) trigger efficiency - 2022 data"
       else if strContains hist_name "2023" then "Run 3 (2022, L3) trigger efficiency - 2023 data"
       else "Run 3 (2022, L3) trigger efficiency")
    else if strContains hist_name "BtoJPsi" then
      "Run 3 (2022, L3) trigger efficiency - simulation"
    else if strContains hist_name "COSMI" then
      (if strContains hist_name "2022" then "Run 3 (2022, L2) trigger efficiency - 2022 data"
       else if strContains hist_name "2023" then "Run 3 (2022, L2) trigger efficiency - 2023 data"
       else "Run 3 (2022, L2) trigger efficiency")
    else if strContains hist_name "ratio" then "Data/MC ratio"
    else "Efficiency (" ++ hist_name ++ ")"

/-! ### process_single_figure (source lines 523-656) -/

/-- The exclusion test of the filtering loop (source line 587): the name
contains case-insensitive "ratio", or the y-axis title contains
"Data/MC". -/
def is_ratio_panel (h : TH1) : Bool :=
  strContains (toLowerStr h.name) "ratio" || strContains h.yTitle "Data/MC"

/-- One iteration of the filtering loop (source lines 582-599); the state
is the `processed_names` set (as its insertion-ordered list) together with
`unique_histograms`. -/
def filter_step (acc : List String × List TH1) (h : TH1) : List String × List TH1 :=
  if is_ratio_panel h then acc
  else
    let base_name := replaceStr h.name "_copy" ""
    if acc.1.contains base_name then acc
    else (acc.1 ++ [base_name], acc.2 ++ [h])

/-- The whole filtering loop: deduplicated, ratio-free histograms in
enumeration order. -/
def filter_histograms (histograms : List TH1) : List TH1 :=
  (histograms.foldl filter_step ([], [])).2

/-- The per-figure environment of `process_single_figure`: whether the
ROOT file opens (non-zombie), whether canvas "c" is found, the histograms
collected from the canvas, whether the figure's PDF exists on disk, and
the outcome of the ImageMagick capability probe. -/
structure FigureInput where
  fileOk : Bool
  canvasOk : Bool
  histograms : List TH1
  pdfExists : Bool
  probe : ProbeOutcome
deriving DecidableEq

/-- The independent variable built from the first retained histogram
(source lines 602-618). -/
def independent_variable_of (figure_name : String) (first_hist : TH1) : Variable :=
  let first_hist_data := extract_histogram_data first_hist
  let inf := get_x_axis_info first_hist.xTitle figure_name
  create_binned_variable inf.1 first_hist_data.x_low first_hist_data.x_high inf.2 true

/-- The dependent variable built from one retained histogram (source lines
621-647); every branch of the y-units chain yields the empty string, and
`CME` keeps its Python default 13.6. -/
def dependent_variable_of (figure_name : String) (h : TH1) : Variable :=
  let hist_data := extract_histogram_data h
  let y_units :=
    if strContains h.yTitle "Efficiency" then ""
    else if strContains h.yTitle "Data/MC" then ""
    else ""
  create_dependent_variable (create_variable_name h.name figure_name)
    hist_data.y_values hist_data.y_errors y_units "Statistical uncertainty" 13.6

/-- `process_single_figure(submission, root_file_path, figure_name)`:
returns the updated submission and the boolean success flag. -/
def process_single_figure (submission : Submission) (inp : FigureInput)
    (figure_name : String) : Submission × Bool :=
  if !inp.fileOk then (submission, false)
  else if !inp.canvasOk then (submission, false)
  else if inp.histograms.isEmpty then (submission, false)
  else
    let metadata := get_figure_metadata figure_name
    let table : Table :=
      { name := figure_name, description := metadata.description,
        location := metadata.location,
        keywords := [("reactions", ["P P --> X"]), ("observables", ["EFF"]),
          ("phrases", ["CMS", "LLP", "long-lived particles", "trigger",
            "efficiency", "displaced muons"])],
        image_files := [], vars := [] }
    let pdf_path := "data_Alejandro/" ++ figure_name ++ ".pdf"
    let table :=
      if inp.pdfExists && check_imagemagick_available inp.probe then
        table.add_image pdf_path
      else table
    let unique_histograms := filter_histograms inp.histograms
    let table :=
      match unique_histograms with
      | [] => table
      | first_hist :: _ => table.add_variable (independent_variable_of figure_name first_hist)
    let table :=
      unique_histograms.foldl (fun t h => t.add_variable (dependent_variable_of figure_name h)) table
    (submission.add_table table, true)

/-! ### process_existing_yaml_file (source lines 740-819) -/

/-- One entry of a `values` list in the canonical-record text encoding;
`errors` holds whatever uncertainty information accompanies the point
(label, symmetric magnitude) — the source reads only `value`. -/
structure YamlValue where
  value : ℚ
  errors : List (String × ℚ)
deriving DecidableEq

/-- A `qualifiers` entry of a dependent variable in the record. -/
structure YamlQualifier where
  name : String
  value : ℚ
deriving DecidableEq

/-- An `independent_variables` entry: `header: {name, units}` (units
optional) and its values. -/
structure YamlIndepVar where
  headerName : String
  headerUnits : Option String
  values : List YamlValue
deriving DecidableEq

/-- A `dependent_variables` entry: header name, values and qualifiers. -/
structure YamlDepVar where
  headerName : String
  values : List YamlValue
  qualifiers : List YamlQualifier
deriving DecidableEq

/-- A parsed canonical-record text file; `Option` models the presence of
the two top-level keys. -/
structure YamlContent where
  independent_variables : Option (List YamlIndepVar)
  dependent_variables : Option (List YamlDepVar)
deriving DecidableEq

/-- The Variable built from one `independent_variables` entry (source
lines 784-792). -/
def indep_variable_of_yaml (iv : YamlIndepVar) : Variable :=
  { name := iv.headerName, is_independent := true, is_binned := false,
    units := iv.headerUnits.getD "",
    values := iv.values.map (fun v => VarValue.scalar v.value),
    uncertainties := [], qualifiers := [] }

/-- The Variable built from one `dependent_variables` entry (source lines
797-810): only each point's `value` is read, and each qualifier is
re-declared with the default empty units. -/
def dep_variable_of_yaml (dv : YamlDepVar) : Variable :=
  let var : Variable :=
    { name := dv.headerName, is_independent := false, is_binned := false,
      units := "",
      values := dv.values.map (fun v => VarValue.scalar v.value),
      uncertainties := [], qualifiers := [] }
  dv.qualifiers.foldl (fun v q => v.add_qualifier q.name q.value "") var

/-- `process_existing_yaml_file(submission, yaml_file_path, figure_name)`:
`fileExists` models `os.path.exists`, `parsed = none` a YAML load failure
caught by the surrounding `except` (which returns `False`). -/
def process_existing_yaml_file (submission : Submission) (fileExists : Bool)
    (parsed : Option YamlContent) (pdfExists : Bool) (probe : ProbeOutcome)
    (figure_name : String) : Submission × Bool :=
  if !fileExists then (submission, false)
  else
    match parsed with
    | none => (submission, false)
    | some yaml_content =>
      let metadata := get_figure_metadata figure_name
      let table : Table :=
        { name := figure_name, description := metadata.description,
          location := metadata.location,
          keywords := [("reactions", ["P P --> X"]), ("observables", ["EFF"]),
            ("phrases", ["CMS", "LLP", "long-lived particles", "trigger",
              "efficiency", "displaced muons", "proper decay length"])],
          image_files := [], vars := [] }
      let pdf_source_path := "data_Alejandro/fromDisplacedDimuons/" ++ figure_name ++ ".pdf"
      let table :=
        if pdfExists && check_imagemagick_available probe then
          table.add_image pdf_source_path
        else table
      let table :=
        match yaml_content.independent_variables with
        | none => table
        | some ivs => ivs.foldl (fun t iv => t.add_variable (indep_variable_of_yaml iv)) table
      let table :=
        match yaml_content.dependent_variables with
        | none => table
        | some dvs => dvs.foldl (fun t dv => t.add_variable (dep_variable_of_yaml dv)) table
      (submission.add_table table, true)

/-! ### Concrete fixtures used by witnesses and counterexamples -/

/-- A ratio-panel histogram (name contains "ratio", y-title "Data/MC"). -/
def hist_ratio_panel : TH1 :=
  ⟨"h_ratio_panel", "x", "Data/MC", [0, 1, 2], [5, 6], [1, 1]⟩

/-- A plain two-bin histogram named `X`. -/
def hist_X : TH1 := ⟨"X", "x [GeV]", "Efficiency", [0, 1, 2], [3, 4], [1, 0]⟩

/-- The `_copy` duplicate of `hist_X`. -/
def hist_X_copy : TH1 := ⟨"X_copy", "x [GeV]", "Efficiency", [0, 1, 2], [3, 4], [1, 0]⟩

/-- A plain two-bin histogram named `Y`. -/
def hist_Y : TH1 := ⟨"Y", "x [GeV]", "Efficiency", [0, 1, 2], [7, 8], [0, 0]⟩

/-- A one-bin histogram. -/
def hist_one_bin : TH1 := ⟨"A", "x", "Efficiency", [0, 1], [5], [1]⟩

/-- A two-bin histogram. -/
def hist_two_bins : TH1 := ⟨"B", "x", "Efficiency", [0, 1, 2], [5, 6], [1, 1]⟩

/-- A submission with no tables yet. -/
def empty_submission : Submission := ⟨[]⟩

/-- A figure whose only discovered object is a ratio panel. -/
def figure_input_all_ratio : FigureInput :=
  ⟨true, true, [hist_ratio_panel], false, ProbeOutcome.fileNotFound⟩

/-- A figure with two retained histograms of equal bin count. -/
def figure_input_uniform : FigureInput :=
  ⟨true, true, [hist_X, hist_Y], false, ProbeOutcome.fileNotFound⟩

/-- A figure whose retained histograms have different bin counts. -/
def figure_input_mismatched : FigureInput :=
  ⟨true, true, [hist_one_bin, hist_two_bins], false, ProbeOutcome.fileNotFound⟩

/-- A figure whose PDF exists but whose ImageMagick probe timed out. -/
def figure_input_probe_timeout : FigureInput :=
  ⟨true, true, [hist_X], true, ProbeOutcome.timeoutExpired⟩

/-- A canonical record with one independent variable and one dependent
variable whose single point carries an uncertainty entry. -/
def yaml_record_with_errors : YamlContent :=
  ⟨some [⟨"ctau", some "mm", [⟨1, []⟩, ⟨2, []⟩]⟩],
   some [⟨"eff", [⟨1, [("stat", 1)]⟩], [⟨"SQRT(S)", 13⟩]⟩]⟩

/-- A canonical record with zero independent variables. -/
def yaml_record_no_indep : YamlContent :=
  ⟨some [], some [⟨"eff", [⟨1, []⟩], []⟩]⟩

/-- A canonical record with two independent variables. -/
def yaml_record_two_indep : YamlContent :=
  ⟨some [⟨"a", none, [⟨1, []⟩]⟩, ⟨"b", none, [⟨2, []⟩]⟩],
   some [⟨"eff", [⟨3, []⟩], []⟩]⟩

/-! ### Helper lemmas -/

/-- Folding `add_variable` over a list appends the mapped variables. -/
theorem foldl_add_variable {α : Type} (f : α → Variable) (l : List α) (t : Table) :
    l.foldl (fun t h => t.add_variable (f h)) t = { t with vars := t.vars ++ l.map f } := by
  induction l generalizing t with
  | nil => simp
  | cons h tl ih =>
    rw [List.foldl_cons, ih]
    simp [Table.add_variable]

/-- Folding `add_qualifier` over a list appends the mapped qualifiers. -/
theorem foldl_add_qualifier (l : List YamlQualifier) (v : Variable) :
    l.foldl (fun v q => v.add_qualifier q.name q.value "") v
      = { v with qualifiers := v.qualifiers ++ l.map (fun q => (q.name, q.value, "")) } := by
  induction l generalizing v with
  | nil => simp
  | cons q tl ih =>
    rw [List.foldl_cons, ih]
    simp [Variable.add_qualifier]

theorem extract_histogram_data_x_low_length (h : TH1) :
    (extract_histogram_data h).x_low.length = h.GetNbinsX := by
  simp [extract_histogram_data]

theorem extract_histogram_data_y_values_length (h : TH1) :
    (extract_histogram_data h).y_values.length = h.GetNbinsX := by
  simp [extract_histogram_data]

theorem create_binned_variable_is_independent (n : String) (lo hi : List ℚ) (u : String) (b : Bool) :
    (create_binned_variable n lo hi u b).is_independent = b := rfl

theorem create_binned_variable_values_length (n : String) (lo hi : List ℚ) (u : String) (b : Bool) :
    (create_binned_variable n lo hi u b).values.length = lo.length := by
  simp [create_binned_variable]

/-- The uncertainty list attached by `create_dependent_variable` as a
function of the error list. -/
theorem create_dependent_variable_uncertainties (n : String) (ys errs : List ℚ)
    (u lbl : String) (CME : ℚ) :
    (create_dependent_variable n ys errs u lbl CME).uncertainties
      = (if (!errs.isEmpty) && errs.any (fun err => decide (0 < err)) then
          [{ label := lbl, is_symmetric := true, values := errs }] else []) := by
  unfold create_dependent_variable
  split <;> rfl

theorem create_dependent_variable_is_independent (n : String) (ys errs : List ℚ)
    (u lbl : String) (CME : ℚ) :
    (create_dependent_variable n ys errs u lbl CME).is_independent = false := by
  unfold create_dependent_variable
  split <;> rfl

theorem create_dependent_variable_values_length (n : String) (ys errs : List ℚ)
    (u lbl : String) (CME : ℚ) :
    (create_dependent_variable n ys errs u lbl CME).values.length = ys.length := by
  unfold create_dependent_variable
  split <;> simp [Variable.add_qualifier, Variable.add_uncertainty]

theorem dependent_variable_of_is_independent (fname : String) (h : TH1) :
    (dependent_variable_of fname h).is_independent = false :=
  create_dependent_variable_is_independent ..

theorem dependent_variable_of_values_length (fname : String) (h : TH1) :
    (dependent_variable_of fname h).values.length = h.GetNbinsX := by
  unfold dependent_variable_of
  rw [create_dependent_variable_values_length, extract_histogram_data_y_values_length]

theorem independent_variable_of_is_independent (fname : String) (h : TH1) :
    (independent_variable_of fname h).is_independent = true :=
  create_binned_variable_is_independent ..

theorem independent_variable_of_values_length (fname : String) (h : TH1) :
    (independent_variable_of fname h).values.length = h.GetNbinsX := by
  unfold independent_variable_of
  rw [create_binned_variable_values_length, extract_histogram_data_x_low_length]

/-- `filter_step` ignores ratio panels. -/
theorem filter_step_ratio (acc : List String × List TH1) (h : TH1)
    (hr : is_ratio_panel h = true) : filter_step acc h = acc := by
  simp [filter_step, hr]

/-- The filtering fold only looks at non-ratio objects. -/
theorem foldl_filter_step_eq_filter (l : List TH1) (acc : List String × List TH1) :
    l.foldl filter_step acc = (l.filter (fun h => !is_ratio_panel h)).foldl filter_step acc := by
  induction l generalizing acc with
  | nil => rfl
  | cons h tl ih =>
    by_cases hr : is_ratio_panel h = true
    · simp [hr, filter_step_ratio, ih]
    · simp only [Bool.not_eq_true] at hr
      simp [hr, ih]

theorem indep_variable_of_yaml_is_independent (iv : YamlIndepVar) :
    (indep_variable_of_yaml iv).is_independent = true := rfl

theorem dep_variable_of_yaml_is_independent (dv : YamlDepVar) :
    (dep_variable_of_yaml dv).is_independent = false := by
  rw [dep_variable_of_yaml, foldl_add_qualifier]

theorem dep_variable_of_yaml_uncertainties (dv : YamlDepVar) :
    (dep_variable_of_yaml dv).uncertainties = [] := by
  rw [dep_variable_of_yaml, foldl_add_qualifier]

theorem dep_variable_of_yaml_qualifiers (dv : YamlDepVar) :
    (dep_variable_of_yaml dv).qualifiers
      = dv.qualifiers.map (fun q => (q.name, q.value, "")) := by
  rw [dep_variable_of_yaml, foldl_add_qualifier]
  simp

/-- What `process_single_figure` does once the file, canvas and histogram
checks pass: one table is appended, whose variables are the independent
variable of the first retained histogram (when one exists) followed by one
dependent variable per retained histogram, and whose image is attached
exactly when the PDF exists and the ImageMagick probe succeeds. -/
theorem process_single_figure_spec (sub : Submission) (inp : FigureInput) (fname : String)
    (h1 : inp.fileOk = true) (h2 : inp.canvasOk = true) (h3 : inp.histograms ≠ []) :
    ∃ t : Table,
      process_single_figure sub inp fname = (sub.add_table t, true) ∧
      t.vars = (match filter_histograms inp.histograms with
        | [] => []
        | first_hist :: _ => [independent_variable_of fname first_hist])
        ++ (filter_histograms inp.histograms).map (dependent_variable_of fname) ∧
      t.image_files = (if inp.pdfExists && check_imagemagick_available inp.probe then
        ["data_Alejandro/" ++ fname ++ ".pdf"] else []) := by
  have hne : inp.histograms.isEmpty = false := by
    cases hh : inp.histograms
    · exact absurd hh h3
    · rfl
  unfold process_single_figure
  simp only [h1, h2, hne, Bool.not_true, Bool.not_false, Bool.false_eq_true, if_false, if_true,
    ite_false, ite_true]
  rw [foldl_add_variable]
  refine ⟨_, rfl, ?_, ?_⟩
  · cases hfil : filter_histograms inp.histograms <;>
      cases hpd : inp.pdfExists && check_imagemagick_available inp.probe <;>
      simp [Table.add_variable, Table.add_image]
  · cases hfil : filter_histograms inp.histograms <;>
      cases hpd : inp.pdfExists && check_imagemagick_available inp.probe <;>
      simp [Table.add_variable, Table.add_image]

/-- What `process_existing_yaml_file` does when the file exists and parses:
one table is appended whose variables are the mapped independent entries
followed by the mapped dependent entries. -/
theorem process_existing_yaml_file_spec (sub : Submission) (c : YamlContent) (pdfE : Bool)
    (probe : ProbeOutcome) (fname : String) :
    ∃ t : Table,
      process_existing_yaml_file sub true (some c) pdfE probe fname = (sub.add_table t, true) ∧
      t.vars = (c.independent_variables.getD []).map indep_variable_of_yaml
        ++ (c.dependent_variables.getD []).map dep_variable_of_yaml := by
  unfold process_existing_yaml_file
  simp only [Bool.not_true, Bool.false_eq_true, if_false, ite_false, ite_true]
  refine ⟨_, rfl, ?_⟩
  cases hiv : c.independent_variables <;> cases hdv : c.dependent_variables <;>
    cases hpd : pdfE && check_imagemagick_available probe <;>
    simp [foldl_add_variable, Table.add_image]

/-! ### Claim C1 -/

/-- Claim C1 counterexample: a dependent series whose declared error
sequence is non-empty and entirely zero yields a dependent Variable with
NO attached Uncertainty — `create_dependent_variable` suppresses all-zero
uncertainty sequences, contrary to the claim. -/
theorem create_dependent_variable_all_zero_suppressed :
    (create_dependent_variable "Efficiency (X)" [1, 2] [0, 0] ""
      "Statistical uncertainty" 13.6).uncertainties = [] := rfl

/-- Claim C1 (amended): a series whose declared error sequence consists
entirely of zero magnitudes yields a dependent Variable with NO attached
Uncertainty (all-zero sequences are suppressed, exactly like the case of
no error values at all); an Uncertainty — carrying the full error
sequence — is attached exactly when the error sequence is non-empty and
contains a strictly positive magnitude. -/
theorem create_dependent_variable_uncertainty_cases
    (n : String) (ys errs : List ℚ) (u lbl : String) (CME : ℚ) :
    ((∀ e ∈ errs, e = 0) →
      (create_dependent_variable n ys errs u lbl CME).uncertainties = []) ∧
    (errs ≠ [] → (∃ e ∈ errs, 0 < e) →
      (create_dependent_variable n ys errs u lbl CME).uncertainties
        = [{ label := lbl, is_symmetric := true, values := errs }]) := by
  constructor
  · intro hz
    rw [create_dependent_variable_uncertainties, if_neg]
    simp only [Bool.and_eq_true, List.any_eq_true, decide_eq_true_eq, not_and, not_exists]
    intro _ e he
    rw [hz e he]
    simp
  · rintro hne ⟨e, he, hpos⟩
    rw [create_dependent_variable_uncertainties, if_pos]
    simp only [Bool.and_eq_true, List.any_eq_true, decide_eq_true_eq, Bool.not_eq_true']
    exact ⟨by simpa [List.isEmpty_iff] using hne, e, he, hpos⟩

/-- Claim C1 witness: both hypotheses discharged at concrete inputs. -/
theorem create_dependent_variable_uncertainty_cases_witness :
    (create_dependent_variable "X" [1, 2] [0, 0] "" "Statistical uncertainty" 1).uncertainties
      = []
    ∧ (create_dependent_variable "X" [1, 2] [0, 2] "" "Statistical uncertainty" 1).uncertainties
      = [{ label := "Statistical uncertainty", is_symmetric := true, values := [0, 2] }] :=
  ⟨(create_dependent_variable_uncertainty_cases "X" [1, 2] [0, 0] ""
      "Statistical uncertainty" 1).1 (by decide),
   (create_dependent_variable_uncertainty_cases "X" [1, 2] [0, 2] ""
      "Statistical uncertainty" 1).2 (by decide) ⟨2, by decide, by decide⟩⟩

/-! ### Claim C8 -/

theorem getD_map_range (n : Nat) (f : Nat → ℚ) (i : Nat) (h : i < n) :
    ((List.range n).map f).getD i 0 = f i := by
  rw [List.getD_eq_getElem?_getD, List.getElem?_map, List.getElem?_range h]
  rfl

/-- Claim C8: for a histogram with N declared bins,
`extract_histogram_data` emits exactly N (low, high, center) bin triples,
N contents and N errors, and the emitted edges are contiguous:
`x_high[i] = x_low[i+1]` for every `i` up to N-2. -/
theorem extract_histogram_data_bin_structure (hist : TH1) :
    (extract_histogram_data hist).x_low.length = hist.GetNbinsX ∧
    (extract_histogram_data hist).x_high.length = hist.GetNbinsX ∧
    (extract_histogram_data hist).x_centers.length = hist.GetNbinsX ∧
    (extract_histogram_data hist).y_values.length = hist.GetNbinsX ∧
    (extract_histogram_data hist).y_errors.length = hist.GetNbinsX ∧
    ∀ i : Nat, i + 1 < hist.GetNbinsX →
      (extract_histogram_data hist).x_high.getD i 0
        = (extract_histogram_data hist).x_low.getD (i + 1) 0 := by
  refine ⟨by simp [extract_histogram_data], by simp [extract_histogram_data],
    by simp [extract_histogram_data], by simp [extract_histogram_data],
    by simp [extract_histogram_data], ?_⟩
  intro i hi
  have h1 : i < hist.GetNbinsX := Nat.lt_of_succ_lt hi
  unfold extract_histogram_data
  rw [getD_map_range _ _ _ h1, getD_map_range _ _ _ hi]
  unfold TH1.GetBinLowEdge TH1.GetBinWidth
  simp

/-- Claim C8 witness: the contiguity hypothesis discharged at a concrete
two-bin histogram and `i = 0`. -/
theorem extract_histogram_data_bin_structure_witness :
    (extract_histogram_data hist_two_bins).x_low.length = hist_two_bins.GetNbinsX ∧
    (extract_histogram_data hist_two_bins).x_high.length = hist_two_bins.GetNbinsX ∧
    (extract_histogram_data hist_two_bins).x_centers.length = hist_two_bins.GetNbinsX ∧
    (extract_histogram_data hist_two_bins).y_values.length = hist_two_bins.GetNbinsX ∧
    (extract_histogram_data hist_two_bins).y_errors.length = hist_two_bins.GetNbinsX ∧
    (extract_histogram_data hist_two_bins).x_high.getD 0 0
      = (extract_histogram_data hist_two_bins).x_low.getD 1 0 := by
  obtain ⟨a, b, c, d, e, f⟩ := extract_histogram_data_bin_structure hist_two_bins
  exact ⟨a, b, c, d, e, f 0 (by decide)⟩

/-! ### Claim C9 -/

/-- Claim C9 counterexample: moving the non-retained duplicate `X_copy` in
front of its original `X` — a permutation that only moves a non-retained
object and keeps the relative order of retained objects — changes the
identity of the retained set: `[X, X_copy]` retains `X` while
`[X_copy, X]` retains `X_copy`. -/
theorem filter_histograms_duplicate_position_matters :
    filter_histograms [hist_X, hist_X_copy] = [hist_X] ∧
    filter_histograms [hist_X_copy, hist_X] = [hist_X_copy] ∧
    hist_X ≠ hist_X_copy :=
  ⟨rfl, rfl, by decide⟩

/-- Claim C9 (amended): the retained list depends only on the subsequence
of non-ratio objects, so permutations moving only ratio-excluded objects
(while keeping the rest in order) leave the retained set's identity and
order unchanged; moving a duplicate ahead of the object it duplicates,
however, changes which of the two is retained (first-seen wins in
enumeration order), as the counterexample shows. -/
theorem filter_histograms_ratio_permutation_invariant
    (l₁ l₂ : List TH1)
    (h : l₁.filter (fun h => !is_ratio_panel h) = l₂.filter (fun h => !is_ratio_panel h)) :
    filter_histograms l₁ = filter_histograms l₂ := by
  unfold filter_histograms
  rw [foldl_filter_step_eq_filter l₁, foldl_filter_step_eq_filter l₂, h]

/-- Claim C9 witness: removing the ratio panel from the input leaves the
retained set unchanged. -/
theorem filter_histograms_ratio_permutation_invariant_witness :
    ([hist_ratio_panel, hist_X].filter (fun h => !is_ratio_panel h)
      = [hist_X].filter (fun h => !is_ratio_panel h)) ∧
    filter_histograms [hist_ratio_panel, hist_X] = filter_histograms [hist_X] :=
  ⟨by decide, filter_histograms_ratio_permutation_invariant _ _ (by decide)⟩

/-! ### Claim C10 -/

/-- Claim C10: `get_figure_metadata` is total, with a nine-entry known
table; any figure name outside the nine known figures yields placeholder
description and location strings embedding the raw name, so a missing
metadata entry never fails or skips a figure. -/
theorem get_figure_metadata_placeholder (figure_name : String)
    (h : figure_name ∉ figure_metadata_entries.map Prod.fst) :
    figure_metadata_entries.length = 9 ∧
    get_figure_metadata figure_name =
      ⟨"PLACEHOLDER: Description for " ++ figure_name,
       "PLACEHOLDER: Location for " ++ figure_name⟩ := by
  refine ⟨rfl, ?_⟩
  simp only [figure_metadata_entries, List.map, List.mem_cons, List.not_mem_nil, or_false,
    not_or] at h
  obtain ⟨h1, h2, h3, h4, h5, h6, h7, h8, h9⟩ := h
  simp [get_figure_metadata, figure_metadata_entries, List.lookup,
    beq_eq_false_iff_ne.mpr h1, beq_eq_false_iff_ne.mpr h2, beq_eq_false_iff_ne.mpr h3,
    beq_eq_false_iff_ne.mpr h4, beq_eq_false_iff_ne.mpr h5, beq_eq_false_iff_ne.mpr h6,
    beq_eq_false_iff_ne.mpr h7, beq_eq_false_iff_ne.mpr h8, beq_eq_false_iff_ne.mpr h9]

/-- Claim C10 witness: the unknown-name hypothesis discharged at a
concrete name. -/
theorem get_figure_metadata_placeholder_witness :
    figure_metadata_entries.length = 9 ∧
    get_figure_metadata "FigureNope" =
      ⟨"PLACEHOLDER: Description for FigureNope", "PLACEHOLDER: Location for FigureNope"⟩ :=
  get_figure_metadata_placeholder "FigureNope" (by decide)

/-! ### Claim C2 -/

/-- Claim C2 counterexample: a figure whose only discovered object is a
ratio panel (so the retained set is empty) is NOT skipped: a Table with no
variables is appended to the Submission and the function reports success. -/
theorem process_single_figure_all_filtered_emits_table :
    (process_single_figure empty_submission figure_input_all_ratio "FigureZZ").2 = true ∧
    ((process_single_figure empty_submission figure_input_all_ratio "FigureZZ").1.tables.map
      (fun t => t.vars.length)) = [0] :=
  ⟨rfl, rfl⟩

/-- Claim C2 (amended): when every discovered plot object is filtered out
(but the histogram list itself is non-empty), `process_single_figure`
still appends one Table — containing no variables — to the Submission and
reports success for the tally; only an unopenable file, a missing canvas,
or an empty histogram list are reported as per-figure failures. -/
theorem process_single_figure_all_filtered_success
    (sub : Submission) (inp : FigureInput) (fname : String)
    (h1 : inp.fileOk = true) (h2 : inp.canvasOk = true) (h3 : inp.histograms ≠ [])
    (h4 : filter_histograms inp.histograms = []) :
    (process_single_figure sub inp fname).2 = true ∧
    ∃ t : Table, (process_single_figure sub inp fname).1.tables = sub.tables ++ [t]
      ∧ t.vars = [] := by
  obtain ⟨t, heq, hv, _⟩ := process_single_figure_spec sub inp fname h1 h2 h3
  rw [heq]
  refine ⟨rfl, t, rfl, ?_⟩
  rw [hv, h4]
  rfl

/-- Claim C2 witness: the all-filtered hypothesis discharged at the
concrete one-ratio-panel figure. -/
theorem process_single_figure_all_filtered_success_witness :
    (process_single_figure empty_submission figure_input_all_ratio "FigureZZ").2 = true ∧
    ∃ t : Table,
      (process_single_figure empty_submission figure_input_all_ratio "FigureZZ").1.tables
        = empty_submission.tables ++ [t] ∧ t.vars = [] :=
  process_single_figure_all_filtered_success empty_submission figure_input_all_ratio "FigureZZ"
    rfl rfl (by decide) (by decide)

/-! ### Claim C3 -/

/-- Claim C3: a figure with four objects — a ratio panel, `X`, `X_copy`
and `Y`, in that enumeration order — retains exactly `X` and `Y` in that
order; the emitted Table's variables are the independent axis built from
`X`'s extracted series followed by the two dependent variables for `X`
and `Y`, so there are exactly 2 dependent Variables. -/
theorem process_single_figure_ratio_copy_scenario
    (sub : Submission) (pdfE : Bool) (probe : ProbeOutcome) (fname : String)
    (r x xc y : TH1)
    (hr : is_ratio_panel r = true)
    (hxn : x.name = "X") (hxcn : xc.name = "X_copy") (hyn : y.name = "Y")
    (hxt : strContains x.yTitle "Data/MC" = false)
    (hxct : strContains xc.yTitle "Data/MC" = false)
    (hyt : strContains y.yTitle "Data/MC" = false) :
    filter_histograms [r, x, xc, y] = [x, y] ∧
    ∃ t : Table,
      process_single_figure sub ⟨true, true, [r, x, xc, y], pdfE, probe⟩ fname
        = (sub.add_table t, true) ∧
      t.vars = [independent_variable_of fname x, dependent_variable_of fname x,
        dependent_variable_of fname y] ∧
      (t.vars.filter (fun v => !v.is_independent)).length = 2 := by
  have px : is_ratio_panel x = false := by
    simp [is_ratio_panel, hxn, hxt]
    try decide
  have pxc : is_ratio_panel xc = false := by
    simp [is_ratio_panel, hxcn, hxct]
    try decide
  have py : is_ratio_panel y = false := by
    simp [is_ratio_panel, hyn, hyt]
    try decide
  have bx : replaceStr x.name "_copy" "" = "X" := by rw [hxn]; decide
  have bxc : replaceStr xc.name "_copy" "" = "X" := by rw [hxcn]; decide
  have bY : replaceStr y.name "_copy" "" = "Y" := by rw [hyn]; decide
  have hfil : filter_histograms [r, x, xc, y] = [x, y] := by
    unfold filter_histograms
    rw [List.foldl_cons, filter_step_ratio _ _ hr, List.foldl_cons]
    rw [show filter_step ([], []) x = (["X"], [x]) from by simp [filter_step, px, bx]]
    rw [List.foldl_cons]
    rw [show filter_step (["X"], [x]) xc = (["X"], [x]) from by simp [filter_step, pxc, bxc]]
    rw [List.foldl_cons]
    rw [show filter_step (["X"], [x]) y = (["X", "Y"], [x, y]) from by
      simp [filter_step, py, bY]
      try decide]
    rfl
  refine ⟨hfil, ?_⟩
  obtain ⟨t, heq, hv, hi⟩ := process_single_figure_spec sub
    ⟨true, true, [r, x, xc, y], pdfE, probe⟩ fname rfl rfl (by simp)
  have hh : (⟨true, true, [r, x, xc, y], pdfE, probe⟩ : FigureInput).histograms
      = [r, x, xc, y] := rfl
  rw [hh, hfil] at hv
  have hv2 : t.vars = [independent_variable_of fname x, dependent_variable_of fname x,
      dependent_variable_of fname y] := by
    rw [hv]
    rfl
  refine ⟨t, heq, hv2, ?_⟩
  rw [hv2]
  simp [List.filter, independent_variable_of_is_independent, dependent_variable_of_is_independent]

/-- Claim C3 witness: the scenario instantiated with concrete histograms. -/
theorem process_single_figure_ratio_copy_scenario_witness :
    filter_histograms [hist_ratio_panel, hist_X, hist_X_copy, hist_Y] = [hist_X, hist_Y] ∧
    ∃ t : Table,
      process_single_figure empty_submission
        ⟨true, true, [hist_ratio_panel, hist_X, hist_X_copy, hist_Y], false,
          ProbeOutcome.fileNotFound⟩ "FigureZZ"
        = (empty_submission.add_table t, true) ∧
      t.vars = [independent_variable_of "FigureZZ" hist_X,
        dependent_variable_of "FigureZZ" hist_X, dependent_variable_of "FigureZZ" hist_Y] ∧
      (t.vars.filter (fun v => !v.is_independent)).length = 2 :=
  process_single_figure_ratio_copy_scenario empty_submission false ProbeOutcome.fileNotFound
    "FigureZZ" hist_ratio_panel hist_X hist_X_copy hist_Y (by decide) rfl rfl rfl
    (by decide) (by decide) (by decide)

/-! ### Claim C4 -/

/-- Claim C4 counterexample: retained histograms with differing bin counts
(1 and 2 bins) produce a Table whose independent Variable has 1 value but
whose second dependent Variable has 2 values — the length invariant fails
because the axis from the first retained object is never re-validated. -/
theorem process_single_figure_bin_mismatch :
    ((process_single_figure empty_submission figure_input_mismatched "FigureZZ").1.tables.map
      (fun t => t.vars.map (fun v => (v.is_independent, v.values.length))))
      = [[(true, 1), (false, 1), (false, 2)]] := rfl

/-- Claim C4 (amended): in every Table produced by `process_single_figure`
in which all retained histograms share the declared bin count of the first
retained one, each dependent Variable's value-sequence length equals the
independent Variable's length; when retained bin counts differ the
invariant is violated, since the shared axis is not re-validated. -/
theorem process_single_figure_uniform_bins_invariant
    (sub : Submission) (inp : FigureInput) (fname : String)
    (h1 : inp.fileOk = true) (h2 : inp.canvasOk = true) (h3 : inp.histograms ≠ [])
    (huni : ∀ ha ∈ filter_histograms inp.histograms, ∀ hb ∈ filter_histograms inp.histograms,
      ha.GetNbinsX = hb.GetNbinsX) :
    ∃ t : Table, process_single_figure sub inp fname = (sub.add_table t, true) ∧
      ∀ v ∈ t.vars, v.is_independent = false →
        ∀ w ∈ t.vars, w.is_independent = true → v.values.length = w.values.length := by
  obtain ⟨t, heq, hv, _⟩ := process_single_figure_spec sub inp fname h1 h2 h3
  refine ⟨t, heq, ?_⟩
  intro v hvmem hvdep w hwmem hwind
  rw [hv] at hvmem hwmem
  cases hfil : filter_histograms inp.histograms with
  | nil =>
    rw [hfil] at hvmem
    simp at hvmem
  | cons first rest =>
    rw [hfil] at hvmem hwmem
    simp only [List.mem_append, List.mem_singleton, List.mem_map] at hvmem hwmem
    rcases hvmem with hvl | ⟨a, ha, hva⟩
    · rw [hvl, independent_variable_of_is_independent] at hvdep
      exact absurd hvdep (by simp)
    · rcases hwmem with hwl | ⟨b, hb, hwb⟩
      · rw [← hva, hwl]
        rw [dependent_variable_of_values_length, independent_variable_of_values_length]
        exact huni a (hfil ▸ ha) first (hfil ▸ List.mem_cons_self first rest)
      · rw [← hwb, dependent_variable_of_is_independent] at hwind
        exact absurd hwind (by simp)

/-- Claim C4 witness: the uniform-bin-count hypothesis discharged at a
concrete figure with two retained two-bin histograms. -/
theorem process_single_figure_uniform_bins_invariant_witness :
    ∃ t : Table,
      process_single_figure empty_submission figure_input_uniform "FigureZZ"
        = (empty_submission.add_table t, true) ∧
      ∀ v ∈ t.vars, v.is_independent = false →
        ∀ w ∈ t.vars, w.is_independent = true → v.values.length = w.values.length :=
  process_single_figure_uniform_bins_invariant empty_submission figure_input_uniform "FigureZZ"
    rfl rfl (by decide) (by decide)

/-! ### Claim C5 -/

/-- Claim C5 counterexample: a record with zero independent variables is
NOT skipped — a Table is still emitted and success reported; and a record
with two independent variables yields a Table with two (not exactly one)
independent Variables. -/
theorem process_existing_yaml_file_k_deviations :
    (process_existing_yaml_file empty_submission true (some yaml_record_no_indep) false
      ProbeOutcome.fileNotFound "Figure40").2 = true ∧
    ((process_existing_yaml_file empty_submission true (some yaml_record_no_indep) false
      ProbeOutcome.fileNotFound "Figure40").1.tables.length = 1) ∧
    ((process_existing_yaml_file empty_submission true (some yaml_record_two_indep) false
      ProbeOutcome.fileNotFound "Figure40").1.tables.map
        (fun t => (t.vars.filter (fun v => v.is_independent)).length)) = [2] :=
  ⟨rfl, rfl, rfl⟩

/-- Claim C5 (amended): merge mode on an existing, parseable record with k
independent and m dependent variables always succeeds and appends exactly
one Table with exactly k independent and m dependent Variables; in
particular k = 0 yields a Table with no independent Variable — emitted,
not skipped, and without a crash. -/
theorem process_existing_yaml_file_counts
    (sub : Submission) (c : YamlContent) (pdfE : Bool) (probe : ProbeOutcome)
    (fname : String) :
    (process_existing_yaml_file sub true (some c) pdfE probe fname).2 = true ∧
    ∃ t : Table,
      (process_existing_yaml_file sub true (some c) pdfE probe fname).1.tables
        = sub.tables ++ [t]
      ∧ (t.vars.filter (fun v => v.is_independent)).length
          = (c.independent_variables.getD []).length
      ∧ (t.vars.filter (fun v => !v.is_independent)).length
          = (c.dependent_variables.getD []).length := by
  obtain ⟨t, heq, hv⟩ := process_existing_yaml_file_spec sub c pdfE probe fname
  rw [heq]
  refine ⟨rfl, t, rfl, ?_, ?_⟩
  · rw [hv, List.filter_append]
    simp [List.filter_map, Function.comp_def, indep_variable_of_yaml_is_independent,
      dep_variable_of_yaml_is_independent]
  · rw [hv, List.filter_append]
    simp [List.filter_map, Function.comp_def, indep_variable_of_yaml_is_independent,
      dep_variable_of_yaml_is_independent]

/-! ### Claim C6 -/

/-- Claim C6 counterexample: an input record whose dependent variable
carries uncertainty information on its point (a non-empty `errors` entry)
is merged into a Table whose dependent Variable has NO attached
Uncertainty — the uncertainty information is lost. -/
theorem process_existing_yaml_file_uncertainty_dropped :
    ((yaml_record_with_errors.dependent_variables.getD []).map
      (fun dv => dv.values.map (fun v => v.errors))) = [[[("stat", 1)]]] ∧
    ((process_existing_yaml_file empty_submission true (some yaml_record_with_errors) false
      ProbeOutcome.fileNotFound "Figure40").1.tables.map
        (fun t => t.vars.map (fun v => (v.is_independent, v.uncertainties))))
      = [[(true, []), (false, [])]] :=
  ⟨rfl, rfl⟩

/-- Claim C6 (amended): merge mode preserves each dependent variable's
qualifiers (re-declared as (name, value) with empty units) but carries
over no uncertainty information: every merged dependent Variable has an
empty uncertainty list, whatever error entries the input record holds. -/
theorem process_existing_yaml_file_dep_shape
    (sub : Submission) (c : YamlContent) (pdfE : Bool) (probe : ProbeOutcome)
    (fname : String) :
    ∃ t : Table,
      process_existing_yaml_file sub true (some c) pdfE probe fname = (sub.add_table t, true) ∧
      t.vars.filter (fun v => !v.is_independent)
        = (c.dependent_variables.getD []).map dep_variable_of_yaml ∧
      ∀ dv ∈ c.dependent_variables.getD [],
        (dep_variable_of_yaml dv).uncertainties = [] ∧
        (dep_variable_of_yaml dv).qualifiers
          = dv.qualifiers.map (fun q => (q.name, q.value, "")) := by
  obtain ⟨t, heq, hv⟩ := process_existing_yaml_file_spec sub c pdfE probe fname
  refine ⟨t, heq, ?_, ?_⟩
  · rw [hv, List.filter_append]
    simp [List.filter_map, Function.comp_def, indep_variable_of_yaml_is_independent,
      dep_variable_of_yaml_is_independent]
  · intro dv _
    exact ⟨dep_variable_of_yaml_uncertainties dv, dep_variable_of_yaml_qualifiers dv⟩

/-- Claim C6 witness: the per-variable facts instantiated at the concrete
record with uncertainty entries. -/
theorem process_existing_yaml_file_dep_shape_witness :
    (⟨"eff", [⟨1, [("stat", 1)]⟩], [⟨"SQRT(S)", 13⟩]⟩ : YamlDepVar)
        ∈ yaml_record_with_errors.dependent_variables.getD [] ∧
    (dep_variable_of_yaml ⟨"eff", [⟨1, [("stat", 1)]⟩], [⟨"SQRT(S)", 13⟩]⟩).uncertainties
        = [] ∧
    (dep_variable_of_yaml ⟨"eff", [⟨1, [("stat", 1)]⟩], [⟨"SQRT(S)", 13⟩]⟩).qualifiers
        = [("SQRT(S)", 13, "")] := by
  obtain ⟨t, _, _, hall⟩ := process_existing_yaml_file_dep_shape empty_submission
    yaml_record_with_errors false ProbeOutcome.fileNotFound "Figure40"
  have hmem : (⟨"eff", [⟨1, [("stat", 1)]⟩], [⟨"SQRT(S)", 13⟩]⟩ : YamlDepVar)
      ∈ yaml_record_with_errors.dependent_variables.getD [] := by decide
  obtain ⟨hu, hq⟩ := hall _ hmem
  exact ⟨hmem, hu, by rw [hq]; rfl⟩

/-! ### Claim C7 -/

/-- Claim C7: once the per-figure checks pass, a Table is always emitted
and success reported; an image is attached iff the PDF path exists on disk
AND the capability probe reports available; and the probe reports
available exactly on exit code 0 — non-zero exit, a missing executable, a
timeout, or a subprocess error all report unavailable, never fatally. -/
theorem process_single_figure_image_gate
    (sub : Submission) (inp : FigureInput) (fname : String)
    (h1 : inp.fileOk = true) (h2 : inp.canvasOk = true) (h3 : inp.histograms ≠ []) :
    (process_single_figure sub inp fname).2 = true ∧
    (∃ t : Table, (process_single_figure sub inp fname).1.tables = sub.tables ++ [t] ∧
      (t.image_files ≠ [] ↔ (inp.pdfExists = true
        ∧ check_imagemagick_available inp.probe = true))) ∧
    (∀ pr : ProbeOutcome, check_imagemagick_available pr = true
      ↔ pr = ProbeOutcome.exited 0) := by
  obtain ⟨t, heq, _, hi⟩ := process_single_figure_spec sub inp fname h1 h2 h3
  rw [heq]
  refine ⟨rfl, ⟨t, rfl, ?_⟩, ?_⟩
  · rw [hi]
    cases hpe : inp.pdfExists <;> cases hma : check_imagemagick_available inp.probe <;> simp
  · intro pr
    cases pr <;> simp [check_imagemagick_available]

/-- Claim C7 witness: at a figure whose PDF exists but whose probe timed
out, the Table is emitted, no image is attached, and the probe reports
unavailable. -/
theorem process_single_figure_image_gate_witness :
    (process_single_figure empty_submission figure_input_probe_timeout "FigureZZ").2 = true ∧
    (∃ t : Table,
      (process_single_figure empty_submission figure_input_probe_timeout "FigureZZ").1.tables
        = empty_submission.tables ++ [t] ∧
      (t.image_files ≠ [] ↔ (figure_input_probe_timeout.pdfExists = true
        ∧ check_imagemagick_available figure_input_probe_timeout.probe = true))) ∧
    (check_imagemagick_available ProbeOutcome.timeoutExpired = true
      ↔ ProbeOutcome.timeoutExpired = ProbeOutcome.exited 0) := by
  obtain ⟨ha, hb, hc⟩ := process_single_figure_image_gate empty_submission
    figure_input_probe_timeout "FigureZZ" rfl rfl (by decide)
  exact ⟨ha, hb, hc ProbeOutcome.timeoutExpired⟩

end HepData
